import Mathlib

/-!
Verification development for the ScrapeAndDown job pipeline.

The definitions below are a shallow embedding of the Go sources:
* `containsSub` / `containsAny` / `Service.detectPlatform` embed the
  orchestrator's substring-based platform classifier
  (internal/service/orchestrator.go).
* `Apify.detectPlatform`, `Apify.extractVideoURL`, `Apify.scrapeAssemble`
  and `Apify.waitAndGetResults` embed the apify scraper package; the
  polling loop is modelled over an explicit trace of events observed at
  each loop iteration (context cancellation at the wait boundary, request
  failure, or a decoded status response).
* `Ytdlp.getVideoURL` embeds the yt-dlp adapter's URL resolution.
* `Service.runJob` embeds the orchestrator's `RunJob`; external effects
  (storage, scraper, downloader, subprocess, clock) are supplied as an
  explicit environment of outcomes, and the model additionally records the
  sequence of collaborator calls, the URL handed to the downloader, and
  which return statement fired.
Go strings are modelled on `List Char` / `String` for ASCII inputs;
`time.Time` is modelled as `Nat` with `0` as the zero value; a Go `error`
is `Option String` (`none` = nil).
-/

/-- `s[i : i+len(sub)] == sub` — the slice comparison inside the Go loop of
`containsAny` (orchestrator.go line 161). -/
def substrAt (s sub : List Char) (i : Nat) : Bool :=
  decide ((s.drop i).take sub.length = sub)

/-- The inner loop of Go `containsAny` for one candidate `sub`:
guard `len(s) >= len(sub)`, then try every start index
`i` with `0 ≤ i ≤ len(s) - len(sub)`.  Also used to model
`strings.Contains` (same substring semantics). -/
def containsSub (s sub : List Char) : Bool :=
  if sub.length ≤ s.length then
    (List.range (s.length - sub.length + 1)).any (fun i => substrAt s sub i)
  else false

/-- Go `containsAny(s, subs...)` (orchestrator.go lines 157–168). -/
def containsAny (s : String) (subs : List String) : Bool :=
  subs.any (fun sub => containsSub s.data sub.data)

/-- Case-insensitive substring containment — the predicate the spec uses to
describe the classifier ("contains ... in any letter casing").  Spec-side
definition, for comparison with the code's classifier. -/
def containsInsensitive (s frag : String) : Bool :=
  containsSub (s.data.map Char.toLower) frag.data

namespace Service

/-- `detectPlatform` of the service package (orchestrator.go lines 147–155):
case-SENSITIVE substring match. -/
def detectPlatform (url : String) : String :=
  if containsAny url ["youtube.com", "youtu.be"] then "youtube"
  else if containsAny url ["tiktok.com"] then "tiktok"
  else "unknown"

end Service

namespace Apify

/-- `detectPlatform` of the apify package (part_000 lines 229–238):
lowercases, then `strings.Contains`; unsupported URLs yield `""`. -/
def detectPlatform (url : String) : String :=
  let lowerURL := url.data.map Char.toLower
  if containsSub lowerURL "youtube.com".data ||
     containsSub lowerURL "youtu.be".data then "youtube"
  else if containsSub lowerURL "tiktok.com".data then "tiktok"
  else ""

end Apify

/-- The apify tag with its empty-string sentinel renamed to the
orchestrator's `"unknown"` sentinel, for side-by-side comparison. -/
def apifyTagOrUnknown (url : String) : String :=
  if Apify.detectPlatform url = "" then "unknown" else Apify.detectPlatform url

/-! ### JSON values and video-URL extraction (apify package) -/

/-- A parsed JSON value, the image of Go's `interface{}` after
`json.Unmarshal`. -/
inductive JValue where
  | str (s : String)
  | num (n : Int)
  | jbool (b : Bool)
  | null
  | arr (elems : List JValue)
  | obj (fields : List (String × JValue))

/-- One result record: Go `map[string]interface{}` as an association list
with distinct keys (JSON objects decoded by Go have unique keys). -/
abbrev JItem := List (String × JValue)

/-- Go map indexing `item[k]`. -/
def lookupField (item : JItem) (k : String) : Option JValue :=
  (item.find? (fun p => p.1 == k)).map (fun p => p.2)

/-- Go type assertion `v.(string)` combined with the `val != ""` check:
`some s` when the value is a non-empty JSON string. -/
def asNonEmptyString : Option JValue → Option String
  | some (JValue.str s) => if s = "" then none else some s
  | _ => none

namespace Apify

/-- The errors `extractVideoURL` can produce (part_000 lines 204, 226);
the spec calls them `NoResultsError` and `VideoURLNotFoundError`. -/
inductive ExtractError where
  | noResults
  | videoURLNotFound
deriving DecidableEq, Repr

/-- The field-name loop of `extractVideoURL` (part_000 lines 210–215):
first non-empty string value under the ordered candidate names. -/
def firstFieldURL (item : JItem) : List String → Option String
  | [] => none
  | f :: rest =>
    match asNonEmptyString (lookupField item f) with
    | some v => some v
    | none => firstFieldURL item rest

/-- The ordered candidate field names (part_000 line 210). -/
def fieldNames : List String :=
  ["videoUrl", "video_url", "downloadUrl", "download_url", "videoPlayUrl"]

/-- The `formats` fallback (part_000 lines 218–224): if the item has a
non-empty `formats` array whose LAST element is an object with a non-empty
string `url`, return that url. -/
def formatsFallback (item : JItem) : Option String :=
  match lookupField item "formats" with
  | some (JValue.arr formats) =>
    if formats.length > 0 then
      match formats.getLast? with
      | some (JValue.obj fmt) => asNonEmptyString (lookupField fmt "url")
      | _ => none
    else none
  | _ => none

/-- `extractVideoURL` (part_000 lines 197–227), after JSON decoding: empty
array fails with `noResults`; otherwise inspect only the first record. -/
def extractVideoURL (items : List JItem) : Except ExtractError String :=
  match items with
  | [] => Except.error ExtractError.noResults
  | item :: _ =>
    match firstFieldURL item fieldNames with
    | some v => Except.ok v
    | none =>
      match formatsFallback item with
      | some v => Except.ok v
      | none => Except.error ExtractError.videoURLNotFound

/-- A scrape result (ports.ScrapeResult): raw metadata (opaque) plus the
opportunistically extracted video URL. -/
structure ScrapeResult where
  rawMetadata : String
  videoURL : String
deriving DecidableEq, Repr

/-- Lines 70–76 of part_000 (`Scrape`, tail): the extraction error is
discarded (`videoURL, _ := s.extractVideoURL(...)`), the scrape still
succeeds with an empty `VideoURL`. -/
def scrapeAssemble (raw : String) (items : List JItem) : ScrapeResult :=
  { rawMetadata := raw,
    videoURL :=
      match extractVideoURL items with
      | Except.ok v => v
      | Except.error _ => "" }

/-- The platform gate at the top of `Scrape` (part_000 lines 48–51): a URL
the apify classifier cannot place is rejected before any network call. -/
def scrapeGate (url : String) : Option String :=
  if detectPlatform url = "" then
    some ("unsupported platform for URL: " ++ url)
  else none

/-! ### The polling loop of `waitAndGetResults` (part_000 lines 145–182) -/

/-- What one iteration of the polling loop observes.  Each iteration first
waits at the `select` boundary (where context cancellation can win), then
issues one status request whose decoded status is recorded. -/
inductive PollEvent where
  | cancelled
  | reqFailed (e : String)
  | status (s : String) (datasetID : String)
deriving DecidableEq, Repr

/-- How the polling loop exits (or that the supplied trace ran out while it
was still polling). -/
inductive PollOutcome where
  | ctxCancelled
  | requestError (e : String)
  | fetchDataset (datasetID : String)
  | taskFailed (msg : String)
  | stillPolling
deriving DecidableEq, Repr

/-- A status on which the loop stops (success or the failure family). -/
def isTerminalStatus (s : String) : Bool :=
  s == "SUCCEEDED" || s == "FAILED" || s == "ABORTED" || s == "TIMED-OUT"

/-- An event after which the loop no longer runs. -/
def isStoppingEvent : PollEvent → Bool
  | PollEvent.cancelled => true
  | PollEvent.reqFailed _ => true
  | PollEvent.status s _ => isTerminalStatus s

/-- The polling loop of `waitAndGetResults` over an event trace; the second
component counts the status requests actually issued.  Cancellation at the
wait boundary returns `ctx.Err()` before any further request; `SUCCEEDED`
proceeds to the dataset fetch; `FAILED`/`ABORTED`/`TIMED-OUT` surface an
error naming the status; other statuses continue the loop. -/
def waitAndGetResults : List PollEvent → PollOutcome × Nat
  | [] => (PollOutcome.stillPolling, 0)
  | PollEvent.cancelled :: _ => (PollOutcome.ctxCancelled, 0)
  | PollEvent.reqFailed e :: _ => (PollOutcome.requestError e, 1)
  | PollEvent.status s d :: rest =>
    if s == "SUCCEEDED" then (PollOutcome.fetchDataset d, 1)
    else if s == "FAILED" || s == "ABORTED" || s == "TIMED-OUT" then
      (PollOutcome.taskFailed ("actor run failed with status: " ++ s), 1)
    else
      let r := waitAndGetResults rest
      (r.1, r.2 + 1)

/-- The poll interval (part_000 line 153: `time.After(3 * time.Second)`). -/
def pollIntervalSeconds : Nat := 3

end Apify

/-! ### yt-dlp adapter (part_001 lines 100–130) -/

namespace Ytdlp

/-- ASCII whitespace as `unicode.IsSpace` classifies it, for
`strings.TrimSpace`. -/
def goIsSpace (c : Char) : Bool :=
  c == ' ' || c == '\t' || c == '\n' || c == '\r' ||
  c == Char.ofNat 11 || c == Char.ofNat 12

/-- `strings.TrimSpace`. -/
def trimSpace (s : String) : String :=
  String.mk (((s.data.dropWhile goIsSpace).reverse.dropWhile goIsSpace).reverse)

/-- `strings.Split(s, "\n")`: every `\n` separates; `n` separators give
`n+1` (possibly empty) parts. -/
def splitNL : List Char → List (List Char)
  | [] => [[]]
  | c :: rest =>
    let r := splitNL rest
    if c = '\n' then [] :: r
    else
      match r with
      | [] => [[c]]
      | h :: t => (c :: h) :: t

/-- The timeout `GetVideoURL` installs on its context
(part_001 line 101: `2*time.Minute`). -/
def timeoutMinutes : Nat := 2

/-- `GetVideoURL` (part_001 lines 100–130) given the outcome of running the
yt-dlp subprocess: on command failure wrap the error; trim the output; an
empty trimmed output is an error; otherwise return the first
newline-separated URL. -/
def getVideoURL (cmdOutcome : Except String String) : Except String String :=
  match cmdOutcome with
  | Except.error e => Except.error ("yt-dlp failed: " ++ e)
  | Except.ok outStr =>
    let urlStr := trimSpace outStr
    if urlStr = "" then Except.error "yt-dlp returned empty URL"
    else
      match splitNL urlStr.data with
      | u :: _ => Except.ok (String.mk u)
      | [] => Except.ok urlStr

end Ytdlp

/-! ### Domain records and the orchestrator (orchestrator.go lines 46–145) -/

/-- domain.Job (part_002 lines 5–11). -/
structure Job where
  id : String
  url : String
  platform : String
  createdAt : Nat
deriving DecidableEq, Repr

/-- domain.JobResult (part_002 lines 13–21).  `completedAt = 0` is the Go
zero `time.Time`. -/
structure JobResult where
  job : Job
  metadataPath : String
  videoPath : String
  success : Bool
  errorMessage : String
  completedAt : Nat
deriving DecidableEq, Repr

namespace Service

/-- The collaborator operations `RunJob` can invoke, in the order invoked. -/
inductive Call where
  | initJob
  | saveInput
  | scrape
  | saveMetadata
  | ytDlp
  | download
  | saveVideo
deriving DecidableEq, Repr

/-- Which `return` statement of `RunJob` fired (the failing phase), if any. -/
inductive Phase where
  | initJob
  | scrape
  | saveMetadata
  | ytDlpResolve
  | emptyURL
  | download
  | saveVideo
deriving DecidableEq, Repr

/-- The phase marker `RunJob` puts in front of the error message at each
failing return; the empty-URL return (orchestrator.go lines 103–105) sets
no message at all. -/
def phaseTag : Phase → String
  | Phase.initJob => "failed to init job: "
  | Phase.scrape => "failed to scrape metadata: "
  | Phase.saveMetadata => "failed to save metadata: "
  | Phase.ytDlpResolve => "yt-dlp failed: "
  | Phase.emptyURL => ""
  | Phase.download => "failed to download video: "
  | Phase.saveVideo => "failed to save video: "

/-- The outcomes of every external effect one run of `RunJob` may perform,
plus the clock readings and the storage path function's value.  A Go
`error` is `Option String` (`none` = nil); the yt-dlp call returns the Go
pair `(url, err)` as two fields. -/
structure Env where
  jobID : String
  now : Nat
  doneAt : Nat
  jobPath : String
  initJobErr : Option String
  saveInputErr : Option String
  scrapeRes : Except String Apify.ScrapeResult
  saveMetadataErr : Option String
  ytUrl : String
  ytErr : Option String
  downloadErr : Option String
  saveVideoErr : Option String
deriving Repr

/-- `fmt.Sprintf("%v", err)` on a Go error value. -/
def errString : Option String → String
  | some e => e
  | none => "<nil>"

/-- Everything one run of `RunJob` produces: the `(*JobResult, error)` Go
return values, plus (for reasoning) the ordered collaborator calls, the URL
the downloader was invoked with, and the failing phase. -/
structure RunOutput where
  result : JobResult
  err : Option String
  calls : List Call
  downloadedURL : Option String
  failedPhase : Option Phase
deriving DecidableEq, Repr

/-- `RunJob` (orchestrator.go lines 46–145), step for step:
create the Job (classifying the platform), init storage, save the input
record (error discarded, line 66), scrape, save metadata, set the metadata
path, resolve the video URL (yt-dlp for youtube, the ScrapeResult's URL
otherwise), reject an empty URL (without touching `ErrorMessage`),
download, save the video, then mark success and stamp completion. -/
def runJob (env : Env) (url : String) : RunOutput :=
  let job : Job :=
    { id := env.jobID, url := url, platform := detectPlatform url,
      createdAt := env.now }
  let result : JobResult :=
    { job := job, metadataPath := "", videoPath := "", success := false,
      errorMessage := "", completedAt := 0 }
  match env.initJobErr with
  | some e =>
    { result := { result with errorMessage := "failed to init job: " ++ e },
      err := some e, calls := [Call.initJob], downloadedURL := none,
      failedPhase := some Phase.initJob }
  | none =>
    -- SaveInput is called next; its error is discarded (line 66).
    match env.scrapeRes with
    | Except.error e =>
      { result :=
          { result with errorMessage := "failed to scrape metadata: " ++ e },
        err := some e,
        calls := [Call.initJob, Call.saveInput, Call.scrape],
        downloadedURL := none, failedPhase := some Phase.scrape }
    | Except.ok scrapeResult =>
      match env.saveMetadataErr with
      | some e =>
        { result :=
            { result with errorMessage := "failed to save metadata: " ++ e },
          err := some e,
          calls := [Call.initJob, Call.saveInput, Call.scrape,
                    Call.saveMetadata],
          downloadedURL := none, failedPhase := some Phase.saveMetadata }
      | none =>
        let result :=
          { result with metadataPath := env.jobPath ++ "/metadata_raw.json" }
        let finishTail : String → List Call → RunOutput :=
          fun videoDownloadURL calls =>
            if videoDownloadURL = "" then
              { result := result, err := some "no video url resolved",
                calls := calls, downloadedURL := none,
                failedPhase := some Phase.emptyURL }
            else
              match env.downloadErr with
              | some e =>
                { result :=
                    { result with
                      errorMessage := "failed to download video: " ++ e },
                  err := some e, calls := calls ++ [Call.download],
                  downloadedURL := some videoDownloadURL,
                  failedPhase := some Phase.download }
              | none =>
                match env.saveVideoErr with
                | some e =>
                  { result :=
                      { result with
                        errorMessage := "failed to save video: " ++ e },
                    err := some e,
                    calls := calls ++ [Call.download, Call.saveVideo],
                    downloadedURL := some videoDownloadURL,
                    failedPhase := some Phase.saveVideo }
                | none =>
                  { result :=
                      { result with
                        videoPath := env.jobPath ++ "/video.mp4",
                        success := true, completedAt := env.doneAt },
                    err := none,
                    calls := calls ++ [Call.download, Call.saveVideo],
                    downloadedURL := some videoDownloadURL,
                    failedPhase := none }
        if job.platform = "youtube" then
          if env.ytErr = none ∧ env.ytUrl ≠ "" then
            finishTail env.ytUrl
              [Call.initJob, Call.saveInput, Call.scrape, Call.saveMetadata,
               Call.ytDlp]
          else
            { result :=
                { result with
                  errorMessage := "yt-dlp failed: " ++ errString env.ytErr },
              err := env.ytErr,
              calls := [Call.initJob, Call.saveInput, Call.scrape,
                        Call.saveMetadata, Call.ytDlp],
              downloadedURL := none, failedPhase := some Phase.ytDlpResolve }
        else
          finishTail scrapeResult.videoURL
            [Call.initJob, Call.saveInput, Call.scrape, Call.saveMetadata]

end Service

/-! ## Helper lemmas -/

/-- The index loop finds `sub` exactly when `sub` occurs as a contiguous
infix of `s`. -/
theorem containsSub_iff_infix (s sub : List Char) :
    containsSub s sub = true ↔ ∃ pre post, pre ++ sub ++ post = s := by
  constructor
  · intro h
    unfold containsSub at h
    split at h
    · rcases List.any_eq_true.mp h with ⟨i, _, hsub⟩
      have hEq : (s.drop i).take sub.length = sub := of_decide_eq_true hsub
      refine ⟨s.take i, s.drop (i + sub.length), ?_⟩
      have h1 : s.drop (i + sub.length) = (s.drop i).drop sub.length := by
        rw [List.drop_drop]
      have h2 : sub ++ (s.drop i).drop sub.length = s.drop i := by
        conv_rhs => rw [← List.take_append_drop sub.length (s.drop i)]
        rw [hEq]
      rw [h1, List.append_assoc, h2, List.take_append_drop]
    · exact absurd h (by simp)
  · rintro ⟨pre, post, rfl⟩
    unfold containsSub
    have hlen : sub.length ≤ (pre ++ sub ++ post).length := by
      simp [List.length_append]
      omega
    rw [if_pos hlen]
    apply List.any_eq_true.mpr
    refine ⟨pre.length, ?_, ?_⟩
    · rw [List.mem_range]
      simp [List.length_append]
      omega
    · unfold substrAt
      apply decide_eq_true
      rw [List.append_assoc, List.drop_left, List.take_left]

-- sanity examples (spec §8)
example : Service.detectPlatform "https://youtu.be/abc" = "youtube" := by decide
example : Service.detectPlatform "https://tiktok.com/@u/video/1" = "tiktok" := by
  decide
example : Service.detectPlatform "https://vimeo.com/1" = "unknown" := by decide
example : Apify.detectPlatform "https://YOUTUBE.COM/w" = "youtube" := by decide
example : Service.detectPlatform "https://YOUTUBE.COM/w" = "unknown" := by decide

/-! ## Shared concrete environments for witnesses and counterexamples -/

/-- A run where every collaborator succeeds and the scrape result carries a
direct video URL (the tiktok path). -/
def envAllOk : Service.Env :=
  { jobID := "j1", now := 5, doneAt := 9, jobPath := "/data/jobs/j1",
    initJobErr := none, saveInputErr := none,
    scrapeRes := Except.ok { rawMetadata := "raw", videoURL := "http://cdn/v.mp4" },
    saveMetadataErr := none, ytUrl := "", ytErr := none,
    downloadErr := none, saveVideoErr := none }

/-- A run against the repository's scraper for an unsupported URL: the
scrape call is the one that fails, with the apify gate's message. -/
def envUnsupported : Service.Env :=
  { envAllOk with
    scrapeRes := Except.error "unsupported platform for URL: https://vimeo.com/1" }

/-- A run whose scrape succeeds but yields no video URL (empty `VideoURL`),
with every storage operation succeeding. -/
def envNoVideoURL : Service.Env :=
  { envAllOk with
    scrapeRes := Except.ok { rawMetadata := "raw", videoURL := "" } }

/-- A run where only `SaveInput` fails. -/
def envSaveInputFails : Service.Env :=
  { envAllOk with saveInputErr := some "disk full" }

/-! ## Claim theorems -/

/-- C4 counterexample: the claim says the orchestrator's classifier matches
case-insensitively, so `https://YOUTUBE.COM/w` (which contains
`youtube.com` in upper casing) would map to `"youtube"`; the code's
classifier is case-sensitive and returns `"unknown"` there. -/
theorem c4_counterexample :
    containsInsensitive "https://YOUTUBE.COM/w" "youtube.com" = true ∧
    Service.detectPlatform "https://YOUTUBE.COM/w" = "unknown" := by decide

/-- C4 (amended): the orchestrator's classifier performs a CASE-SENSITIVE
substring match: it returns `"youtube"` exactly when the URL contains
`youtube.com` or `youtu.be` as an exact substring, `"tiktok"` exactly when
it contains `tiktok.com` exactly (and no YouTube fragment), and
`"unknown"` for every other URL. -/
theorem c4_detectPlatform_characterization (url : String) :
    (Service.detectPlatform url = "youtube" ↔
      ((∃ pre post, pre ++ "youtube.com".data ++ post = url.data) ∨
       (∃ pre post, pre ++ "youtu.be".data ++ post = url.data))) ∧
    (Service.detectPlatform url = "tiktok" ↔
      ((∃ pre post, pre ++ "tiktok.com".data ++ post = url.data) ∧
       ¬((∃ pre post, pre ++ "youtube.com".data ++ post = url.data) ∨
         (∃ pre post, pre ++ "youtu.be".data ++ post = url.data)))) ∧
    (Service.detectPlatform url = "unknown" ↔
      (¬((∃ pre post, pre ++ "youtube.com".data ++ post = url.data) ∨
         (∃ pre post, pre ++ "youtu.be".data ++ post = url.data)) ∧
       ¬(∃ pre post, pre ++ "tiktok.com".data ++ post = url.data))) := by
  have hyc := containsSub_iff_infix url.data "youtube.com".data
  have hyb := containsSub_iff_infix url.data "youtu.be".data
  have htt := containsSub_iff_infix url.data "tiktok.com".data
  unfold Service.detectPlatform containsAny
  simp only [List.any_cons, List.any_nil, Bool.or_false]
  cases h1 : containsSub url.data "youtube.com".data <;>
    cases h2 : containsSub url.data "youtu.be".data <;>
      cases h3 : containsSub url.data "tiktok.com".data <;>
        simp_all

/-- C3 counterexample: on `https://YOUTUBE.COM/w` the apify classifier
(case-insensitive) answers `"youtube"` while the orchestrator classifier
(case-sensitive) answers `"unknown"`, so the two do NOT agree on every URL
even after mapping `""` to `"unknown"`. -/
theorem c3_counterexample :
    apifyTagOrUnknown "https://YOUTUBE.COM/w" = "youtube" ∧
    Service.detectPlatform "https://YOUTUBE.COM/w" = "unknown" := by decide

/-- C3 (amended): the two classifiers agree (with the apify `""` sentinel
read as `"unknown"`) on every URL with no uppercase letters — i.e. on every
URL unchanged by lowering, which includes all canonically lowercase host
names. They can disagree only on URLs that are changed by lowering. -/
theorem c3_classifiers_agree_on_lowercase (url : String)
    (hlow : ∀ c ∈ url.data, Char.toLower c = c) :
    apifyTagOrUnknown url = Service.detectPlatform url := by
  have hmap : url.data.map Char.toLower = url.data := by
    calc url.data.map Char.toLower = url.data.map id :=
          List.map_congr_left hlow
    _ = url.data := List.map_id url.data
  unfold apifyTagOrUnknown Apify.detectPlatform Service.detectPlatform
    containsAny
  simp only [hmap, List.any_cons, List.any_nil, Bool.or_false]
  cases h1 : containsSub url.data "youtube.com".data <;>
    cases h2 : containsSub url.data "youtu.be".data <;>
      cases h3 : containsSub url.data "tiktok.com".data <;>
        simp_all

/-- Witness for C3 (amended) at the lowercase URL `https://youtu.be/abc`. -/
theorem c3_witness :
    apifyTagOrUnknown "https://youtu.be/abc" =
      Service.detectPlatform "https://youtu.be/abc" :=
  c3_classifiers_agree_on_lowercase "https://youtu.be/abc" (by decide)

/-- C5: video-URL extraction on the parsed result array: an empty array
fails with `noResults`; on the first record the ordered field-name search
wins when it finds a non-empty string (in particular a non-empty
`videoUrl`); when the field search finds nothing, the result is exactly the
`formats` fallback or `videoURLNotFound`; and the two concrete examples
from the spec evaluate as stated (`{"videoUrl":"https://x/y.mp4"}` returns
that URL, `formats [{"url":"a"},{"url":"b"}]` returns `"b"`). -/
theorem c5_extractVideoURL_spec :
    Apify.extractVideoURL [] = Except.error Apify.ExtractError.noResults ∧
    (∀ (item : JItem) (rest : List JItem) (v : String),
       lookupField item "videoUrl" = some (JValue.str v) → v ≠ "" →
       Apify.extractVideoURL (item :: rest) = Except.ok v) ∧
    (∀ (item : JItem) (rest : List JItem) (v : String),
       Apify.firstFieldURL item Apify.fieldNames = some v →
       Apify.extractVideoURL (item :: rest) = Except.ok v) ∧
    (∀ (item : JItem) (rest : List JItem),
       Apify.firstFieldURL item Apify.fieldNames = none →
       Apify.extractVideoURL (item :: rest) =
         (match Apify.formatsFallback item with
          | some v => Except.ok v
          | none => Except.error Apify.ExtractError.videoURLNotFound)) ∧
    Apify.extractVideoURL [[("videoUrl", JValue.str "https://x/y.mp4")]] =
      Except.ok "https://x/y.mp4" ∧
    Apify.extractVideoURL
      [[("formats",
         JValue.arr [JValue.obj [("url", JValue.str "a")],
                     JValue.obj [("url", JValue.str "b")]])]] =
      Except.ok "b" := by
  refine ⟨rfl, ?_, ?_, ?_, rfl, rfl⟩
  · intro item rest v hv hne
    have hfirst : Apify.firstFieldURL item Apify.fieldNames = some v := by
      unfold Apify.fieldNames Apify.firstFieldURL
      rw [hv]
      simp [asNonEmptyString, hne]
    simp [Apify.extractVideoURL, hfirst]
  · intro item rest v hfirst
    simp [Apify.extractVideoURL, hfirst]
  · intro item rest hnone
    simp [Apify.extractVideoURL, hnone]

/-- Witness for C5 at a concrete record whose `videoUrl` field is set. -/
theorem c5_witness :
    Apify.extractVideoURL [[("videoUrl", JValue.str "w")]] = Except.ok "w" :=
  c5_extractVideoURL_spec.2.1 [("videoUrl", JValue.str "w")] [] "w" rfl
    (by decide)

/-- One non-stopping iteration of the polling loop: consume the event,
issue one more status request, continue on the rest of the trace. -/
theorem waitAndGetResults_step (e : Apify.PollEvent)
    (he : Apify.isStoppingEvent e = false) (rest : List Apify.PollEvent) :
    Apify.waitAndGetResults (e :: rest) =
      ((Apify.waitAndGetResults rest).1,
       (Apify.waitAndGetResults rest).2 + 1) := by
  cases e with
  | cancelled => simp [Apify.isStoppingEvent] at he
  | reqFailed e => simp [Apify.isStoppingEvent] at he
  | status s d =>
    have hs : Apify.isTerminalStatus s = false := he
    unfold Apify.isTerminalStatus at hs
    simp only [Bool.or_eq_false_iff, beq_eq_false_iff_ne, ne_eq] at hs
    obtain ⟨⟨⟨h1, h2⟩, h3⟩, h4⟩ := hs
    simp only [Apify.waitAndGetResults]
    simp [h1, h2, h3, h4]

/-- C6: the polling loop stops at the first terminal status and never
issues a status request afterwards (the outcome ignores everything after
the first terminal status); `SUCCEEDED` proceeds to the dataset fetch;
`FAILED`/`ABORTED`/`TIMED-OUT` return an error naming that status; and a
cancellation observed at a wait boundary returns the cancellation outcome
immediately — before issuing any further status request, i.e. within one
polling interval — never a stale result.  `pre` is any prefix of
non-stopping observations; the request counter confirms exactly
`pre.length + 1` (resp. `pre.length`) status requests were issued. -/
theorem c6_polling_terminal_behaviour (pre post : List Apify.PollEvent)
    (s d : String)
    (hpre : ∀ e ∈ pre, Apify.isStoppingEvent e = false) :
    (Apify.isTerminalStatus s = true →
       Apify.waitAndGetResults (pre ++ Apify.PollEvent.status s d :: post) =
       Apify.waitAndGetResults (pre ++ [Apify.PollEvent.status s d])) ∧
    (s = "SUCCEEDED" →
       Apify.waitAndGetResults (pre ++ Apify.PollEvent.status s d :: post) =
       (Apify.PollOutcome.fetchDataset d, pre.length + 1)) ∧
    (s = "FAILED" ∨ s = "ABORTED" ∨ s = "TIMED-OUT" →
       Apify.waitAndGetResults (pre ++ Apify.PollEvent.status s d :: post) =
       (Apify.PollOutcome.taskFailed ("actor run failed with status: " ++ s),
        pre.length + 1)) ∧
    Apify.waitAndGetResults (pre ++ Apify.PollEvent.cancelled :: post) =
      (Apify.PollOutcome.ctxCancelled, pre.length) := by
  induction pre with
  | nil =>
    refine ⟨?_, ?_, ?_, rfl⟩
    · intro hterm
      unfold Apify.isTerminalStatus at hterm
      simp only [Bool.or_eq_true, beq_iff_eq] at hterm
      rcases hterm with ((h | h) | h) | h <;> subst h <;> rfl
    · intro h; subst h; rfl
    · intro h; rcases h with h | h | h <;> subst h <;> rfl
  | cons e pre ih =>
    have he : Apify.isStoppingEvent e = false :=
      hpre e (List.mem_cons_self e pre)
    have hrest : ∀ x ∈ pre, Apify.isStoppingEvent x = false :=
      fun x hx => hpre x (List.mem_cons_of_mem e hx)
    obtain ⟨ih1, ih2, ih3, ih4⟩ := ih hrest
    refine ⟨?_, ?_, ?_, ?_⟩
    · intro hterm
      rw [List.cons_append, List.cons_append,
        waitAndGetResults_step e he, waitAndGetResults_step e he,
        ih1 hterm]
    · intro h
      rw [List.cons_append, waitAndGetResults_step e he, ih2 h]
      simp [List.length_cons]
    · intro h
      rw [List.cons_append, waitAndGetResults_step e he, ih3 h]
      simp [List.length_cons]
    · rw [List.cons_append, waitAndGetResults_step e he, ih4]
      simp [List.length_cons]

/-- Witness for C6: after one non-terminal `RUNNING` poll, a `SUCCEEDED`
status ends the loop with the dataset fetch after exactly two requests,
ignoring the rest of the trace. -/
theorem c6_witness :
    Apify.waitAndGetResults
      [Apify.PollEvent.status "RUNNING" "x",
       Apify.PollEvent.status "SUCCEEDED" "ds",
       Apify.PollEvent.status "RUNNING" "y"] =
      (Apify.PollOutcome.fetchDataset "ds", 2) :=
  (c6_polling_terminal_behaviour [Apify.PollEvent.status "RUNNING" "x"]
    [Apify.PollEvent.status "RUNNING" "y"] "SUCCEEDED" "ds"
    (by decide)).2.1 rfl

/-- C1: a run's `Success` flag is true exactly when both the metadata and
the video artifact were written, i.e. `SaveMetadata` was invoked and
returned without error AND `SaveVideo` was invoked and returned without
error; consequently any failure before video persistence leaves
`Success = false`. -/
theorem c1_success_iff_artifacts_written (env : Service.Env) (url : String) :
    (Service.runJob env url).result.success = true ↔
      ((Service.Call.saveMetadata ∈ (Service.runJob env url).calls ∧
        env.saveMetadataErr = none) ∧
       (Service.Call.saveVideo ∈ (Service.runJob env url).calls ∧
        env.saveVideoErr = none)) := by
  rcases env with ⟨jobID, now, doneAt, jobPath, initJobErr, saveInputErr,
    scrapeRes, saveMetadataErr, ytUrl, ytErr, downloadErr, saveVideoErr⟩
  cases initJobErr <;> cases scrapeRes <;> cases saveMetadataErr <;>
    cases downloadErr <;> cases saveVideoErr <;>
      simp [Service.runJob] <;> split_ifs <;>
        simp_all [List.mem_append]

/-- C2 counterexample: `https://vimeo.com/1` maps to the unsupported tag,
yet `RunJob` does NOT reject before I/O: it calls `InitJob`, `SaveInput`
and `Scrape` (here with the repository scraper's actual rejection as the
scrape outcome), contradicting "it never calls ... InitJob ...". -/
theorem c2_counterexample :
    Service.detectPlatform "https://vimeo.com/1" = "unknown" ∧
    (Service.runJob envUnsupported "https://vimeo.com/1").calls =
      [Service.Call.initJob, Service.Call.saveInput, Service.Call.scrape] ∧
    Service.Call.initJob ∈
      (Service.runJob envUnsupported "https://vimeo.com/1").calls := by
  refine ⟨by decide, rfl, ?_⟩
  rw [show (Service.runJob envUnsupported "https://vimeo.com/1").calls =
      [Service.Call.initJob, Service.Call.saveInput, Service.Call.scrape]
    from rfl]
  decide

/-- C2 (amended): a job whose URL both classifiers leave unsupported is NOT
rejected before I/O.  When storage initialisation succeeds, `RunJob` calls
`InitJob`, `SaveInput` and `Scrape`; the repository's scraper rejects the
URL at its platform gate, so the run fails at the metadata phase with the
unsupported-platform error; the downloader, `SaveMetadata` and `SaveVideo`
are never reached. -/
theorem c2_unsupported_fails_at_scrape (env : Service.Env) (url : String)
    (hplat : Service.detectPlatform url = "unknown")
    (hapify : Apify.detectPlatform url = "")
    (hinit : env.initJobErr = none)
    (hscrape : env.scrapeRes =
      Except.error ("unsupported platform for URL: " ++ url)) :
    Apify.scrapeGate url = some ("unsupported platform for URL: " ++ url) ∧
    (Service.runJob env url).calls =
      [Service.Call.initJob, Service.Call.saveInput, Service.Call.scrape] ∧
    (Service.runJob env url).err =
      some ("unsupported platform for URL: " ++ url) ∧
    (Service.runJob env url).result.success = false ∧
    (Service.runJob env url).result.errorMessage =
      "failed to scrape metadata: " ++
        ("unsupported platform for URL: " ++ url) := by
  refine ⟨by simp [Apify.scrapeGate, hapify], ?_⟩
  rcases env with ⟨jobID, now, doneAt, jobPath, initJobErr, saveInputErr,
    scrapeRes, saveMetadataErr, ytUrl, ytErr, downloadErr, saveVideoErr⟩
  simp only at hinit hscrape
  subst hinit hscrape
  simp [Service.runJob]

/-- Witness for C2 (amended) at the concrete unsupported URL. -/
theorem c2_witness :
    (Service.runJob envUnsupported "https://vimeo.com/1").err =
      some ("unsupported platform for URL: " ++ "https://vimeo.com/1") :=
  (c2_unsupported_fails_at_scrape envUnsupported "https://vimeo.com/1"
    (by decide) (by decide) rfl rfl).2.2.1

/-- C7: URL resolution is selected solely by the platform tag, one fixed
path per platform.  A tiktok job never invokes the external tool and hands
the downloader the `VideoURL` already present in the ScrapeResult; a
youtube job (metadata phases succeeded) invokes the tool, and uses its URL
when it succeeds, while tool failure — or empty output — is fatal with no
fallback (no download is attempted, the job does not succeed).  The tool
adapter itself wraps subprocess failure, rejects empty output, takes the
FIRST of newline-separated URLs, and installs a 2-minute timeout. -/
theorem c7_resolution_strategy (env : Service.Env) (url : String) :
    (Service.detectPlatform url = "tiktok" →
       Service.Call.ytDlp ∉ (Service.runJob env url).calls) ∧
    (∀ sr : Apify.ScrapeResult,
       Service.detectPlatform url = "tiktok" → env.initJobErr = none →
       env.scrapeRes = Except.ok sr → env.saveMetadataErr = none →
       sr.videoURL ≠ "" →
       (Service.runJob env url).downloadedURL = some sr.videoURL) ∧
    (∀ sr : Apify.ScrapeResult,
       Service.detectPlatform url = "youtube" → env.initJobErr = none →
       env.scrapeRes = Except.ok sr → env.saveMetadataErr = none →
       Service.Call.ytDlp ∈ (Service.runJob env url).calls ∧
       (env.ytErr = none → env.ytUrl ≠ "" →
          (Service.runJob env url).downloadedURL = some env.ytUrl) ∧
       (∀ e, env.ytErr = some e →
          (Service.runJob env url).err = some e ∧
          (Service.runJob env url).downloadedURL = none ∧
          (Service.runJob env url).result.success = false) ∧
       (env.ytUrl = "" →
          (Service.runJob env url).downloadedURL = none ∧
          (Service.runJob env url).result.success = false)) ∧
    (∀ e, Ytdlp.getVideoURL (Except.error e) =
       Except.error ("yt-dlp failed: " ++ e)) ∧
    (∀ out, Ytdlp.trimSpace out = "" →
       Ytdlp.getVideoURL (Except.ok out) =
         Except.error "yt-dlp returned empty URL") ∧
    (∀ out u rest, Ytdlp.trimSpace out ≠ "" →
       Ytdlp.splitNL (Ytdlp.trimSpace out).data = u :: rest →
       Ytdlp.getVideoURL (Except.ok out) = Except.ok (String.mk u)) ∧
    Ytdlp.getVideoURL
      (Except.ok "https://a.example/v\nhttps://a.example/audio") =
      Except.ok "https://a.example/v" ∧
    Ytdlp.timeoutMinutes = 2 := by
  rcases env with ⟨jobID, now, doneAt, jobPath, initJobErr, saveInputErr,
    scrapeRes, saveMetadataErr, ytUrl, ytErr, downloadErr, saveVideoErr⟩
  refine ⟨?_, ?_, ?_, ?_, ?_, ?_, rfl, rfl⟩
  · intro hplat
    cases initJobErr <;> cases scrapeRes <;> cases saveMetadataErr <;>
      cases downloadErr <;> cases saveVideoErr <;>
        simp_all [Service.runJob] <;> split_ifs <;>
          simp_all [List.mem_append]
  · intro sr hplat hinit hscrape hmeta hne
    simp only at hinit hscrape hmeta
    subst hinit hscrape hmeta
    cases downloadErr <;> cases saveVideoErr <;>
      simp_all [Service.runJob]
  · intro sr hplat hinit hscrape hmeta
    simp only at hinit hscrape hmeta
    subst hinit hscrape hmeta
    refine ⟨?_, ?_, ?_, ?_⟩
    · cases downloadErr <;> cases saveVideoErr <;>
        simp_all [Service.runJob, List.mem_append] <;> split_ifs <;>
          simp_all [List.mem_append]
    · intro hyterr hytne
      simp only at hyterr
      subst hyterr
      cases downloadErr <;> cases saveVideoErr <;>
        simp_all [Service.runJob]
    · intro e hyterr
      simp only at hyterr
      subst hyterr
      cases downloadErr <;> cases saveVideoErr <;>
        simp_all [Service.runJob]
    · intro hytempty
      simp only at hytempty
      subst hytempty
      cases ytErr <;> cases downloadErr <;> cases saveVideoErr <;>
        simp_all [Service.runJob]
  · intro e
    simp [Ytdlp.getVideoURL]
  · intro out hempty
    simp [Ytdlp.getVideoURL, hempty]
  · intro out u rest hne hsplit
    simp [Ytdlp.getVideoURL, hne, hsplit]

/-- Witness for C7: a concrete tiktok run hands the downloader exactly the
scrape result's `VideoURL`. -/
theorem c7_witness :
    (Service.runJob envAllOk "https://tiktok.com/@u/video/1").downloadedURL =
      some "http://cdn/v.mp4" :=
  (c7_resolution_strategy envAllOk "https://tiktok.com/@u/video/1").2.1
    { rawMetadata := "raw", videoURL := "http://cdn/v.mp4" }
    (by decide) rfl rfl rfl (by decide)

/-- A string with a non-empty left part is non-empty. -/
theorem strAppend_ne_empty (a b : String) (ha : a ≠ "") : a ++ b ≠ "" := by
  intro h
  apply ha
  have hd := congrArg String.data h
  rw [String.data_append] at hd
  exact String.ext (List.append_eq_nil.mp hd).1

/-- C8 counterexample: a tiktok job whose scrape succeeds with an empty
`VideoURL` fails with the non-nil error `no video url resolved`
(orchestrator.go lines 103–105) but `ErrorMessage` is left EMPTY — not a
non-empty phase-prefixed message as the claim states; the already-set
`MetadataPath` is still returned. -/
theorem c8_counterexample :
    (Service.runJob envNoVideoURL "https://tiktok.com/@u/video/1").err =
      some "no video url resolved" ∧
    (Service.runJob envNoVideoURL
        "https://tiktok.com/@u/video/1").result.errorMessage = "" ∧
    (Service.runJob envNoVideoURL
        "https://tiktok.com/@u/video/1").result.metadataPath =
      "/data/jobs/j1/metadata_raw.json" := by
  refine ⟨by decide, by decide, by decide⟩

set_option maxHeartbeats 1600000 in
/-- C8 (amended): on every failing run the partially populated JobResult is
returned alongside the error (in particular `MetadataPath` stays set for
every failure after metadata persistence), and for every failing step
EXCEPT the empty-resolved-URL check the `ErrorMessage` is a non-empty
message prefixed with the failing phase; the empty-URL failing step
(orchestrator.go lines 103–105) returns the error `no video url resolved`
with `ErrorMessage` left empty. -/
theorem c8_error_message_reporting (env : Service.Env) (url : String) :
    (∀ e, (Service.runJob env url).err = some e →
       ∃ p, (Service.runJob env url).failedPhase = some p ∧
         (p = Service.Phase.emptyURL →
            (Service.runJob env url).result.errorMessage = "" ∧
            e = "no video url resolved") ∧
         (p ≠ Service.Phase.emptyURL →
            (Service.runJob env url).result.errorMessage =
              Service.phaseTag p ++ e ∧
            Service.phaseTag p ≠ "" ∧
            (Service.runJob env url).result.errorMessage ≠ "")) ∧
    (((Service.runJob env url).failedPhase = some Service.Phase.ytDlpResolve ∨
      (Service.runJob env url).failedPhase = some Service.Phase.emptyURL ∨
      (Service.runJob env url).failedPhase = some Service.Phase.download ∨
      (Service.runJob env url).failedPhase = some Service.Phase.saveVideo) →
       (Service.runJob env url).result.metadataPath =
         env.jobPath ++ "/metadata_raw.json") := by
  rcases env with ⟨jobID, now, doneAt, jobPath, initJobErr, saveInputErr,
    scrapeRes, saveMetadataErr, ytUrl, ytErr, downloadErr, saveVideoErr⟩
  constructor
  · intro e herr
    cases initJobErr <;> cases scrapeRes <;> cases saveMetadataErr <;>
      cases ytErr <;> cases downloadErr <;> cases saveVideoErr <;>
        simp_all [Service.runJob, Service.phaseTag, Service.errString]
    all_goals try exact strAppend_ne_empty _ _ (by decide)
    all_goals
      split_ifs at herr ⊢ <;>
        simp_all [Service.phaseTag, Service.errString]
    all_goals try exact strAppend_ne_empty _ _ (by decide)
  · intro hlate
    cases initJobErr <;> cases scrapeRes <;> cases saveMetadataErr <;>
      cases ytErr <;> cases downloadErr <;> cases saveVideoErr <;>
        simp_all [Service.runJob]
    all_goals
      split_ifs at hlate ⊢ <;> simp_all

/-- Witness for C8 (amended): the empty-URL failure keeps the already-set
metadata path in the returned result. -/
theorem c8_witness :
    (Service.runJob envNoVideoURL
        "https://tiktok.com/@u/video/1").result.metadataPath =
      envNoVideoURL.jobPath ++ "/metadata_raw.json" :=
  (c8_error_message_reporting envNoVideoURL "https://tiktok.com/@u/video/1").2
    (Or.inr (Or.inl (by decide)))

/-- C9 counterexample: a run in which only `SaveInput` fails still returns
a nil error and a successful JobResult — the `SaveInput` persistence error
is silently swallowed (orchestrator.go line 66), not surfaced as a job
failure as the claim states. -/
theorem c9_counterexample :
    envSaveInputFails.saveInputErr = some "disk full" ∧
    (Service.runJob envSaveInputFails "https://tiktok.com/@u/video/1").err =
      none ∧
    (Service.runJob envSaveInputFails
        "https://tiktok.com/@u/video/1").result.success = true := by
  refine ⟨by decide, by decide, by decide⟩

/-- C9 (amended): every pipeline-phase error EXCEPT the job-input
persistence error is surfaced as the returned error value: `InitJob`,
`Scrape`, `SaveMetadata`, yt-dlp resolution, `Download` and `SaveVideo`
errors all become the run's error, and the extraction failure inside
`Scrape` is swallowed (the scrape still succeeds, with an empty
`VideoURL`); but the outcome of `SaveInput` has NO effect whatsoever on the
run's outcome — its error is silently discarded. -/
theorem c9_errors_surfaced_except_saveInput (env : Service.Env)
    (url : String) :
    (∀ e : Option String,
       Service.runJob { env with saveInputErr := e } url =
       Service.runJob { env with saveInputErr := none } url) ∧
    (∀ e, env.initJobErr = some e → (Service.runJob env url).err = some e) ∧
    (∀ e, env.initJobErr = none → env.scrapeRes = Except.error e →
       (Service.runJob env url).err = some e) ∧
    (∀ (sr : Apify.ScrapeResult) e, env.initJobErr = none →
       env.scrapeRes = Except.ok sr → env.saveMetadataErr = some e →
       (Service.runJob env url).err = some e) ∧
    (∀ (sr : Apify.ScrapeResult) e, env.initJobErr = none →
       env.scrapeRes = Except.ok sr → env.saveMetadataErr = none →
       Service.detectPlatform url = "youtube" → env.ytErr = some e →
       (Service.runJob env url).err = some e) ∧
    (∀ e, env.downloadErr = some e →
       Service.Call.download ∈ (Service.runJob env url).calls →
       (Service.runJob env url).err = some e) ∧
    (∀ e, env.downloadErr = none → env.saveVideoErr = some e →
       Service.Call.saveVideo ∈ (Service.runJob env url).calls →
       (Service.runJob env url).err = some e) ∧
    (∀ (raw : String) (items : List JItem) (e : Apify.ExtractError),
       Apify.extractVideoURL items = Except.error e →
       Apify.scrapeAssemble raw items =
         { rawMetadata := raw, videoURL := "" }) := by
  rcases env with ⟨jobID, now, doneAt, jobPath, initJobErr, saveInputErr,
    scrapeRes, saveMetadataErr, ytUrl, ytErr, downloadErr, saveVideoErr⟩
  refine ⟨fun e => rfl, ?_, ?_, ?_, ?_, ?_, ?_, ?_⟩
  · intro e hinit
    simp only at hinit
    subst hinit
    simp [Service.runJob]
  · intro e hinit hscrape
    simp only at hinit hscrape
    subst hinit hscrape
    simp [Service.runJob]
  · intro sr e hinit hscrape hmeta
    simp only at hinit hscrape hmeta
    subst hinit hscrape hmeta
    simp [Service.runJob]
  · intro sr e hinit hscrape hmeta hplat hyt
    simp only at hinit hscrape hmeta hyt
    subst hinit hscrape hmeta hyt
    simp_all [Service.runJob]
  · intro e hdl hmem
    simp only at hdl
    subst hdl
    cases initJobErr <;> cases scrapeRes <;> cases saveMetadataErr <;>
      cases ytErr <;> cases saveVideoErr <;>
        simp_all [Service.runJob]
    all_goals split_ifs at hmem ⊢ <;> simp_all [List.mem_append]
  · intro e hdl hsv hmem
    simp only at hdl hsv
    subst hdl hsv
    cases initJobErr <;> cases scrapeRes <;> cases saveMetadataErr <;>
      cases ytErr <;>
        simp_all [Service.runJob]
    all_goals split_ifs at hmem ⊢ <;> simp_all [List.mem_append]
  · intro raw items e hext
    simp [Apify.scrapeAssemble, hext]

/-- Witness for C9 (amended): the scrape error of the unsupported-URL run
is surfaced as the run's error. -/
theorem c9_witness :
    (Service.runJob envUnsupported "https://vimeo.com/1").err =
      some "unsupported platform for URL: https://vimeo.com/1" :=
  (c9_errors_surfaced_except_saveInput envUnsupported
    "https://vimeo.com/1").2.2.1
    "unsupported platform for URL: https://vimeo.com/1" rfl rfl

/-- C10: the completion timestamp is stamped only on the success path: a
run with `Success = false` (in particular every run returning an error)
carries the zero completion time, while a successful run carries the
completion-time clock reading; the Job fields remain populated either
way. -/
theorem c10_completedAt_only_on_success (env : Service.Env) (url : String) :
    ((Service.runJob env url).result.success = false →
       (Service.runJob env url).result.completedAt = 0) ∧
    ((Service.runJob env url).result.success = true →
       (Service.runJob env url).result.completedAt = env.doneAt) ∧
    (∀ e, (Service.runJob env url).err = some e →
       (Service.runJob env url).result.completedAt = 0 ∧
       (Service.runJob env url).result.job.id = env.jobID ∧
       (Service.runJob env url).result.job.url = url) := by
  rcases env with ⟨jobID, now, doneAt, jobPath, initJobErr, saveInputErr,
    scrapeRes, saveMetadataErr, ytUrl, ytErr, downloadErr, saveVideoErr⟩
  refine ⟨?_, ?_, ?_⟩ <;>
    cases initJobErr <;> cases scrapeRes <;> cases saveMetadataErr <;>
      cases ytErr <;> cases downloadErr <;> cases saveVideoErr <;>
        simp_all [Service.runJob]
  all_goals split_ifs <;> simp_all

/-- Witness for C10 at a concrete failing run: zero completion time. -/
theorem c10_witness :
    (Service.runJob envUnsupported "https://vimeo.com/1").result.completedAt =
      0 :=
  (c10_completedAt_only_on_success envUnsupported "https://vimeo.com/1").1
    (by decide)

/-- Witness for C1 at a concrete fully successful run. -/
theorem c1_witness :
    (Service.runJob envAllOk "https://tiktok.com/@u/video/1").result.success =
      true :=
  (c1_success_iff_artifacts_written envAllOk
    "https://tiktok.com/@u/video/1").mpr (by decide)
